import Mathlib

/-!
Shallow embedding of the SYMBIOSIS orchestration kernel
(packages/kernel/src: scheduler, safety/circuit-breaker, safety/approval-gate,
monitor/resource-monitor) and proofs of the specification claims about it.

Modelling conventions:
* JS `Date` values and durations become `Nat` millisecond timestamps; each
  operation that reads the clock takes the current time `now` as an argument.
* JS `Map` becomes either a function `String → Option α` (when the map is only
  looked up) or an insertion-ordered association list (when it is enumerated).
* The `Result<T, E>` shape from `@symbiosis/shared` becomes `Except E T`.
* The opaque payloads (a task's `execute` thunk, a request's free-form
  `context` record, the `result` value inside a task execution result) are
  elided: the claims only concern control state, counters and error codes.
-/

namespace Symbiosis

/-- `CircuitState` from types/kernel.ts. -/
inductive CircuitState where
  | CLOSED
  | OPEN
  | HALF_OPEN
deriving DecidableEq

/-- `CircuitBreakerErrorCode` from packages/shared/src/index.ts. -/
inductive CircuitBreakerErrorCode where
  | CIRCUIT_OPEN
  | BUDGET_EXCEEDED
  | FUEL_DEPLETED
  | TIMEOUT
  | MAX_TURNS_EXCEEDED
deriving DecidableEq

/-- `CircuitBreakerError` (message, code, contextId). -/
structure CircuitBreakerError where
  message : String
  code : CircuitBreakerErrorCode
  contextId : String
deriving DecidableEq

/-- `IExecutionBudget` from types/kernel.ts; `currentFuel` is mutable and can
go below zero, hence `Int`. -/
structure IExecutionBudget where
  maxTokens : Nat
  maxTurns : Nat
  maxTimeMs : Nat
  maxCostCents : Nat
  currentFuel : Int
deriving DecidableEq

/-- `Partial<IExecutionBudget>`: the per-field overrides accepted by
`createContext`. -/
structure BudgetOverrides where
  maxTokens : Option Nat := none
  maxTurns : Option Nat := none
  maxTimeMs : Option Nat := none
  maxCostCents : Option Nat := none
  currentFuel : Option Int := none

/-- `IExecutionContext` from types/kernel.ts. -/
structure IExecutionContext where
  id : String
  agentId : String
  startTime : Nat
  budget : IExecutionBudget
  tokensUsed : Nat
  turnsExecuted : Nat
  costAccumulated : Nat
deriving DecidableEq

/-- `ICircuitBreakerConfig` from types/kernel.ts. -/
structure ICircuitBreakerConfig where
  failureThreshold : Nat
  successThreshold : Nat
  resetTimeoutMs : Nat
  defaultBudget : IExecutionBudget

/-- The mutable fields of the `CircuitBreaker` class: the `BehaviorSubject`
holding the state, the context map, and the success/failure bookkeeping. -/
structure CircuitBreakerSt where
  state : CircuitState
  contexts : String → Option IExecutionContext
  failureCount : Nat
  successCount : Nat
  lastFailureTime : Option Nat

namespace CircuitBreaker

/-- The constructor's initial state: CLOSED, no contexts, zero counters. -/
def init : CircuitBreakerSt :=
  { state := CircuitState.CLOSED
    contexts := fun _ => none
    failureCount := 0
    successCount := 0
    lastFailureTime := none }

/-- `CircuitBreaker.shouldAttemptRecovery`. -/
def shouldAttemptRecovery (cfg : ICircuitBreakerConfig) (s : CircuitBreakerSt)
    (now : Nat) : Bool :=
  match s.lastFailureTime with
  | none => true
  | some t => decide ((now : Int) - (t : Int) ≥ (cfg.resetTimeoutMs : Int))

/-- The `??`-merge of custom budget overrides onto the configured default
budget performed inside `createContext`. -/
def mergeBudget (d : IExecutionBudget) (c : BudgetOverrides) : IExecutionBudget :=
  { maxTokens := c.maxTokens.getD d.maxTokens
    maxTurns := c.maxTurns.getD d.maxTurns
    maxTimeMs := c.maxTimeMs.getD d.maxTimeMs
    maxCostCents := c.maxCostCents.getD d.maxCostCents
    currentFuel := c.currentFuel.getD d.currentFuel }

/-- `CircuitBreaker.createContext`: refuse while OPEN unless the reset timeout
has elapsed (then advance to HALF_OPEN and proceed); otherwise register a
fresh context under the merged budget. -/
def createContext (cfg : ICircuitBreakerConfig) (s : CircuitBreakerSt)
    (id agentId : String) (customBudget : BudgetOverrides) (now : Nat) :
    Except CircuitBreakerError IExecutionContext × CircuitBreakerSt :=
  let proceed : CircuitBreakerSt → Except CircuitBreakerError IExecutionContext × CircuitBreakerSt :=
    fun s' =>
      let context : IExecutionContext :=
        { id := id
          agentId := agentId
          startTime := now
          budget := mergeBudget cfg.defaultBudget customBudget
          tokensUsed := 0
          turnsExecuted := 0
          costAccumulated := 0 }
      (Except.ok context,
        { s' with contexts := fun x => if x = id then some context else s'.contexts x })
  if s.state = CircuitState.OPEN then
    if shouldAttemptRecovery cfg s now then
      proceed { s with state := CircuitState.HALF_OPEN }
    else
      (Except.error ⟨"Circuit breaker is open", CircuitBreakerErrorCode.CIRCUIT_OPEN, id⟩, s)
  else
    proceed s

/-- `CircuitBreaker.canProceed`: the ordered budget checks. -/
def canProceed (s : CircuitBreakerSt) (contextId : String) (now : Nat) :
    Except CircuitBreakerError Bool :=
  match s.contexts contextId with
  | none =>
      Except.error ⟨"Context not found", CircuitBreakerErrorCode.BUDGET_EXCEEDED, contextId⟩
  | some context =>
      if context.budget.currentFuel ≤ 0 then
        Except.error ⟨"Fuel depleted", CircuitBreakerErrorCode.FUEL_DEPLETED, contextId⟩
      else if context.tokensUsed ≥ context.budget.maxTokens then
        Except.error ⟨"Token budget exceeded", CircuitBreakerErrorCode.BUDGET_EXCEEDED, contextId⟩
      else if context.turnsExecuted ≥ context.budget.maxTurns then
        Except.error ⟨"Max turns exceeded", CircuitBreakerErrorCode.MAX_TURNS_EXCEEDED, contextId⟩
      else if context.costAccumulated ≥ context.budget.maxCostCents then
        Except.error ⟨"Cost budget exceeded", CircuitBreakerErrorCode.BUDGET_EXCEEDED, contextId⟩
      else if (now : Int) - (context.startTime : Int) ≥ (context.budget.maxTimeMs : Int) then
        Except.error ⟨"Execution timeout", CircuitBreakerErrorCode.TIMEOUT, contextId⟩
      else
        Except.ok true

/-- `CircuitBreaker.recordUsage`: add tokens and cost, count one turn,
burn one unit of fuel. -/
def recordUsage (s : CircuitBreakerSt) (contextId : String)
    (tokens costCents : Nat) :
    Except CircuitBreakerError IExecutionContext × CircuitBreakerSt :=
  match s.contexts contextId with
  | none =>
      (Except.error ⟨"Context not found", CircuitBreakerErrorCode.BUDGET_EXCEEDED, contextId⟩, s)
  | some context =>
      let context' : IExecutionContext :=
        { context with
            tokensUsed := context.tokensUsed + tokens
            costAccumulated := context.costAccumulated + costCents
            turnsExecuted := context.turnsExecuted + 1
            budget := { context.budget with currentFuel := context.budget.currentFuel - 1 } }
      (Except.ok context',
        { s with contexts := fun x => if x = contextId then some context' else s.contexts x })

/-- `CircuitBreaker.recordSuccess`: bump the success counter; while HALF_OPEN
and at the success threshold, close and reset both counters. -/
def recordSuccess (cfg : ICircuitBreakerConfig) (s : CircuitBreakerSt) :
    CircuitBreakerSt :=
  let sc := s.successCount + 1
  if s.state = CircuitState.HALF_OPEN then
    if sc ≥ cfg.successThreshold then
      { s with state := CircuitState.CLOSED, failureCount := 0, successCount := 0 }
    else
      { s with successCount := sc }
  else
    { s with successCount := sc }

/-- `CircuitBreaker.recordFailure`: bump the failure counter, stamp the
failure time, clear the success counter; open from HALF_OPEN on any failure,
or from elsewhere once the failure threshold is reached. -/
def recordFailure (cfg : ICircuitBreakerConfig) (s : CircuitBreakerSt)
    (now : Nat) : CircuitBreakerSt :=
  let fc := s.failureCount + 1
  let base := { s with failureCount := fc, lastFailureTime := some now, successCount := 0 }
  if s.state = CircuitState.HALF_OPEN then
    { base with state := CircuitState.OPEN }
  else if fc ≥ cfg.failureThreshold then
    { base with state := CircuitState.OPEN }
  else
    base

/-- `CircuitBreaker.releaseContext`. -/
def releaseContext (s : CircuitBreakerSt) (contextId : String) : CircuitBreakerSt :=
  { s with contexts := fun x => if x = contextId then none else s.contexts x }

/-- The public calls that can change circuit-breaker state. -/
inductive Event where
  | success
  | failure (now : Nat)
  | createCtx (id agentId : String) (customBudget : BudgetOverrides) (now : Nat)
  | recordUse (id : String) (tokens costCents : Nat)
  | release (id : String)

/-- One public call applied to the breaker state. -/
def step (cfg : ICircuitBreakerConfig) (s : CircuitBreakerSt) :
    Event → CircuitBreakerSt
  | Event.success => recordSuccess cfg s
  | Event.failure now => recordFailure cfg s now
  | Event.createCtx id agentId customBudget now =>
      (createContext cfg s id agentId customBudget now).2
  | Event.recordUse id tokens costCents => (recordUsage s id tokens costCents).2
  | Event.release id => releaseContext s id

/-- Run a sequence of public calls from the freshly constructed breaker. -/
def run (cfg : ICircuitBreakerConfig) (events : List Event) : CircuitBreakerSt :=
  events.foldl (step cfg) init

/-- A state is reachable when some call sequence produces it from `init`. -/
def Reachable (cfg : ICircuitBreakerConfig) (s : CircuitBreakerSt) : Prop :=
  ∃ events : List Event, run cfg events = s

/-- Every single call preserves "an OPEN breaker has recorded a failure
time". -/
theorem step_preserves_openTime (cfg : ICircuitBreakerConfig)
    (s : CircuitBreakerSt) (e : Event)
    (h : s.state = CircuitState.OPEN → ∃ t, s.lastFailureTime = some t) :
    (step cfg s e).state = CircuitState.OPEN →
      ∃ t, (step cfg s e).lastFailureTime = some t := by
  cases e with
  | success =>
      simp only [step, recordSuccess]
      split_ifs with h1 h2 <;> simpa using h
  | failure now =>
      simp only [step, recordFailure]
      split_ifs with h1 h2 <;> intro _ <;> exact ⟨now, rfl⟩
  | createCtx id agentId customBudget now =>
      simp only [step, createContext]
      split_ifs with h1 h2 <;> simpa using h
  | recordUse id tokens costCents =>
      simp only [step, recordUsage]
      cases hc : s.contexts id <;> simpa using h
  | release id =>
      simp only [step, releaseContext]
      simpa using h

/-- In every reachable state, an OPEN breaker has a recorded last-failure
time. -/
theorem reachable_openTime (cfg : ICircuitBreakerConfig)
    (s : CircuitBreakerSt) (hs : Reachable cfg s) :
    s.state = CircuitState.OPEN → ∃ t, s.lastFailureTime = some t := by
  obtain ⟨events, rfl⟩ := hs
  suffices h : ∀ (evs : List Event) (s0 : CircuitBreakerSt),
      (s0.state = CircuitState.OPEN → ∃ t, s0.lastFailureTime = some t) →
      ((evs.foldl (step cfg) s0).state = CircuitState.OPEN →
        ∃ t, (evs.foldl (step cfg) s0).lastFailureTime = some t) by
    exact h events init (by intro hcon; simp [init] at hcon)
  intro evs
  induction evs with
  | nil => intro s0 h0; exact h0
  | cons e rest ih =>
      intro s0 h0
      exact ih (step cfg s0 e) (step_preserves_openTime cfg s0 e h0)

end CircuitBreaker

/-- Claim C3: for every sequence of recordFailure, recordSuccess and
createContext calls on a circuit breaker starting CLOSED, the state becomes
OPEN only from CLOSED when the failure counter reaches failureThreshold or
from HALF_OPEN on any single recordFailure; it becomes CLOSED only from
HALF_OPEN after the success counter reaches successThreshold (resetting both
counters); and it leaves OPEN only when a createContext call occurs after
resetTimeoutMs has elapsed since the last failure, entering HALF_OPEN. -/
theorem claim_C3_breaker_transitions (cfg : ICircuitBreakerConfig)
    (s : CircuitBreakerSt) (e : CircuitBreaker.Event)
    (hs : CircuitBreaker.Reachable cfg s) :
    ((CircuitBreaker.step cfg s e).state = CircuitState.OPEN ∧
        s.state ≠ CircuitState.OPEN →
      (∃ now, e = CircuitBreaker.Event.failure now) ∧
      ((s.state = CircuitState.CLOSED ∧
          (CircuitBreaker.step cfg s e).failureCount = s.failureCount + 1 ∧
          cfg.failureThreshold ≤ (CircuitBreaker.step cfg s e).failureCount) ∨
        s.state = CircuitState.HALF_OPEN)) ∧
    ((CircuitBreaker.step cfg s e).state = CircuitState.CLOSED ∧
        s.state ≠ CircuitState.CLOSED →
      e = CircuitBreaker.Event.success ∧ s.state = CircuitState.HALF_OPEN ∧
      cfg.successThreshold ≤ s.successCount + 1 ∧
      (CircuitBreaker.step cfg s e).failureCount = 0 ∧
      (CircuitBreaker.step cfg s e).successCount = 0) ∧
    (s.state = CircuitState.OPEN ∧
        (CircuitBreaker.step cfg s e).state ≠ CircuitState.OPEN →
      (CircuitBreaker.step cfg s e).state = CircuitState.HALF_OPEN ∧
      (∃ id agentId customBudget now,
        e = CircuitBreaker.Event.createCtx id agentId customBudget now ∧
        ∃ t, s.lastFailureTime = some t ∧
          (cfg.resetTimeoutMs : Int) ≤ (now : Int) - (t : Int))) := by
  refine ⟨?_, ?_, ?_⟩
  · rintro ⟨hpost, hpre⟩
    cases e with
    | success =>
        exfalso
        simp only [CircuitBreaker.step, CircuitBreaker.recordSuccess] at hpost
        split_ifs at hpost with h1 h2 <;> simp_all
    | failure now =>
        refine ⟨⟨now, rfl⟩, ?_⟩
        simp only [CircuitBreaker.step, CircuitBreaker.recordFailure] at hpost ⊢
        split_ifs at hpost ⊢ with h1 h2
        · exact Or.inr h1
        · cases hstate : s.state with
          | CLOSED => exact Or.inl ⟨rfl, rfl, h2⟩
          | OPEN => exact absurd hstate hpre
          | HALF_OPEN => exact absurd hstate h1
        · simp at hpost
          exact absurd (hpost ▸ rfl) hpre
    | createCtx id agentId customBudget now =>
        exfalso
        simp only [CircuitBreaker.step, CircuitBreaker.createContext] at hpost
        split_ifs at hpost with h1 h2 <;> simp_all
    | recordUse id tokens costCents =>
        exfalso
        simp only [CircuitBreaker.step, CircuitBreaker.recordUsage] at hpost
        cases hc : s.contexts id <;> simp_all
    | release id =>
        exfalso
        simp only [CircuitBreaker.step, CircuitBreaker.releaseContext] at hpost
        simp_all
  · rintro ⟨hpost, hpre⟩
    cases e with
    | success =>
        by_cases h1 : s.state = CircuitState.HALF_OPEN
        · by_cases h2 : cfg.successThreshold ≤ s.successCount + 1
          · refine ⟨rfl, h1, h2, ?_, ?_⟩ <;>
              simp [CircuitBreaker.step, CircuitBreaker.recordSuccess, h1, h2, ge_iff_le]
          · exfalso
            have hst : (CircuitBreaker.step cfg s CircuitBreaker.Event.success).state = s.state := by
              simp [CircuitBreaker.step, CircuitBreaker.recordSuccess, h1, h2, ge_iff_le]
            exact hpre (hst.symm.trans hpost)
        · exfalso
          have hst : (CircuitBreaker.step cfg s CircuitBreaker.Event.success).state = s.state := by
            simp [CircuitBreaker.step, CircuitBreaker.recordSuccess, h1]
          exact hpre (hst.symm.trans hpost)
    | failure now =>
        exfalso
        simp only [CircuitBreaker.step, CircuitBreaker.recordFailure] at hpost
        split_ifs at hpost with h1 h2 <;> simp_all
    | createCtx id agentId customBudget now =>
        exfalso
        simp only [CircuitBreaker.step, CircuitBreaker.createContext] at hpost
        split_ifs at hpost with h1 h2 <;> simp_all
    | recordUse id tokens costCents =>
        exfalso
        simp only [CircuitBreaker.step, CircuitBreaker.recordUsage] at hpost
        cases hc : s.contexts id <;> simp_all
    | release id =>
        exfalso
        simp only [CircuitBreaker.step, CircuitBreaker.releaseContext] at hpost
        simp_all
  · rintro ⟨hpre, hpost⟩
    obtain ⟨t, ht⟩ := CircuitBreaker.reachable_openTime cfg s hs hpre
    cases e with
    | success =>
        exfalso
        simp only [CircuitBreaker.step, CircuitBreaker.recordSuccess] at hpost
        split_ifs at hpost with h1 h2 <;> simp_all
    | failure now =>
        exfalso
        simp only [CircuitBreaker.step, CircuitBreaker.recordFailure] at hpost
        split_ifs at hpost with h1 h2 <;> simp_all
    | createCtx id agentId customBudget now =>
        by_cases h2 : CircuitBreaker.shouldAttemptRecovery cfg s now = true
        · refine ⟨?_, id, agentId, customBudget, now, rfl, t, ht, ?_⟩
          · simp [CircuitBreaker.step, CircuitBreaker.createContext, hpre, h2]
          · have h2' := h2
            simp only [CircuitBreaker.shouldAttemptRecovery, ht, decide_eq_true_eq,
              ge_iff_le] at h2'
            exact h2'
        · exfalso
          apply hpost
          simp [CircuitBreaker.step, CircuitBreaker.createContext, hpre, h2]
    | recordUse id tokens costCents =>
        exfalso
        simp only [CircuitBreaker.step, CircuitBreaker.recordUsage] at hpost
        cases hc : s.contexts id <;> simp_all
    | release id =>
        exfalso
        simp only [CircuitBreaker.step, CircuitBreaker.releaseContext] at hpost
        simp_all

/-- The test suite's breaker configuration: failureThreshold 3,
successThreshold 2, resetTimeoutMs 1000, and the default budget. -/
def cfgDemo : ICircuitBreakerConfig :=
  { failureThreshold := 3
    successThreshold := 2
    resetTimeoutMs := 1000
    defaultBudget :=
      { maxTokens := 1000, maxTurns := 10, maxTimeMs := 60000,
        maxCostCents := 100, currentFuel := 10 } }

/-- Three failures at times 0, 1, 2: opens the demo breaker. -/
def openTrace : List CircuitBreaker.Event :=
  [CircuitBreaker.Event.failure 0, CircuitBreaker.Event.failure 1,
    CircuitBreaker.Event.failure 2]

/-- The breaker state after the three failures. -/
def sOpen : CircuitBreakerSt := CircuitBreaker.run cfgDemo openTrace

/-- A context-creation attempt at time 2000, past the reset timeout. -/
def probeEvent : CircuitBreaker.Event :=
  CircuitBreaker.Event.createCtx "ctx-1" "agent-1" {} 2000

/-- Witness for C3: the opened demo breaker is reachable, and a
context-creation probe past the reset timeout moves it to HALF_OPEN. -/
theorem claim_C3_breaker_transitions_witness :
    CircuitBreaker.Reachable cfgDemo sOpen ∧
    sOpen.state = CircuitState.OPEN ∧
    (CircuitBreaker.step cfgDemo sOpen probeEvent).state = CircuitState.HALF_OPEN ∧
    (∃ id agentId customBudget now,
      probeEvent = CircuitBreaker.Event.createCtx id agentId customBudget now ∧
      ∃ t, sOpen.lastFailureTime = some t ∧
        (cfgDemo.resetTimeoutMs : Int) ≤ (now : Int) - (t : Int)) := by
  have hreach : CircuitBreaker.Reachable cfgDemo sOpen := ⟨openTrace, rfl⟩
  have hpre : sOpen.state = CircuitState.OPEN := by decide
  have h3 := (claim_C3_breaker_transitions cfgDemo sOpen probeEvent hreach).2.2
    ⟨hpre, by decide⟩
  exact ⟨hreach, hpre, h3.1, h3.2⟩

/-- A call sequence made only of `recordSuccess` and `recordFailure`. -/
inductive SFEvent where
  | succ
  | fail (now : Nat)

/-- Interpret an `SFEvent` as the corresponding breaker call. -/
def sfToEvent : SFEvent → CircuitBreaker.Event
  | SFEvent.succ => CircuitBreaker.Event.success
  | SFEvent.fail now => CircuitBreaker.Event.failure now

/-- Whether an `SFEvent` is a `recordFailure` call. -/
def isFail : SFEvent → Bool
  | SFEvent.succ => false
  | SFEvent.fail _ => true

/-- Success/failure calls never move the breaker out of OPEN. -/
theorem sfRun_open_stays (cfg : ICircuitBreakerConfig) :
    ∀ (evs : List SFEvent) (s : CircuitBreakerSt),
      s.state = CircuitState.OPEN →
      ((evs.foldl (fun s0 e => CircuitBreaker.step cfg s0 (sfToEvent e)) s).state
        = CircuitState.OPEN) := by
  intro evs
  induction evs with
  | nil => intro s h; exact h
  | cons e rest ih =>
      intro s h
      have hstep : (CircuitBreaker.step cfg s (sfToEvent e)).state = CircuitState.OPEN := by
        cases e with
        | succ =>
            simp [sfToEvent, CircuitBreaker.step, CircuitBreaker.recordSuccess, h]
        | fail now =>
            simp only [sfToEvent, CircuitBreaker.step, CircuitBreaker.recordFailure]
            split_ifs <;> simp_all
      exact ih (CircuitBreaker.step cfg s (sfToEvent e)) hstep

/-- From CLOSED with the failure counter below threshold, a success/failure
sequence carrying enough failures to reach the threshold ends OPEN. -/
theorem sfRun_closed_opens (cfg : ICircuitBreakerConfig) :
    ∀ (evs : List SFEvent) (s : CircuitBreakerSt),
      s.state = CircuitState.CLOSED →
      s.failureCount < cfg.failureThreshold →
      cfg.failureThreshold ≤ s.failureCount + (evs.filter isFail).length →
      ((evs.foldl (fun s0 e => CircuitBreaker.step cfg s0 (sfToEvent e)) s).state
        = CircuitState.OPEN) := by
  intro evs
  induction evs with
  | nil =>
      intro s h1 h2 h3
      simp only [List.filter_nil, List.length_nil] at h3
      omega
  | cons e rest ih =>
      intro s h1 h2 h3
      cases e with
      | succ =>
          have hstep : CircuitBreaker.step cfg s (sfToEvent SFEvent.succ)
              = { s with successCount := s.successCount + 1 } := by
            simp [sfToEvent, CircuitBreaker.step, CircuitBreaker.recordSuccess, h1]
          simp only [List.foldl_cons, hstep]
          refine ih _ h1 h2 ?_
          simpa [isFail] using h3
      | fail now =>
          by_cases hge : cfg.failureThreshold ≤ s.failureCount + 1
          · have hstep : (CircuitBreaker.step cfg s (sfToEvent (SFEvent.fail now))).state
                = CircuitState.OPEN := by
              simp only [sfToEvent, CircuitBreaker.step, CircuitBreaker.recordFailure]
              split_ifs <;> simp_all
            simp only [List.foldl_cons]
            exact sfRun_open_stays cfg rest _ hstep
          · have hstep : CircuitBreaker.step cfg s (sfToEvent (SFEvent.fail now))
                = { s with
                      failureCount := s.failureCount + 1
                      lastFailureTime := some now
                      successCount := 0 } := by
              simp only [sfToEvent, CircuitBreaker.step, CircuitBreaker.recordFailure]
              split_ifs <;> simp_all
            simp only [List.foldl_cons, hstep]
            have hlen : ((SFEvent.fail now :: rest).filter isFail).length
                = (rest.filter isFail).length + 1 := by
              simp [isFail]
            refine ih _ h1 (by simp; omega) (by simp; omega)

/-- Claim C9: recordSuccess never resets the failure counter while the state
is CLOSED, so from a fresh CLOSED breaker with failureThreshold N, any
success/failure call sequence containing at least N recordFailure calls ends
with the breaker OPEN, however many recordSuccess calls are interleaved. -/
theorem claim_C9_interleaved_failures_open (cfg : ICircuitBreakerConfig)
    (events : List SFEvent)
    (hthr : 1 ≤ cfg.failureThreshold)
    (hcount : cfg.failureThreshold ≤ (events.filter isFail).length) :
    (CircuitBreaker.run cfg (events.map sfToEvent)).state = CircuitState.OPEN ∧
    ∀ s : CircuitBreakerSt, s.state = CircuitState.CLOSED →
      (CircuitBreaker.recordSuccess cfg s).failureCount = s.failureCount := by
  constructor
  · have hfold : CircuitBreaker.run cfg (events.map sfToEvent)
        = events.foldl (fun s0 e => CircuitBreaker.step cfg s0 (sfToEvent e))
            CircuitBreaker.init := by
      simp [CircuitBreaker.run, List.foldl_map]
    rw [hfold]
    exact sfRun_closed_opens cfg events CircuitBreaker.init rfl hthr
      (by simpa [CircuitBreaker.init] using hcount)
  · intro s hs
    simp [CircuitBreaker.recordSuccess, hs]

/-- Two failures with successes interleaved everywhere. -/
def sfDemo : List SFEvent :=
  [SFEvent.succ, SFEvent.fail 0, SFEvent.succ, SFEvent.succ, SFEvent.fail 1,
    SFEvent.succ]

/-- The demo breaker configuration with failureThreshold 2. -/
def cfgDemo9 : ICircuitBreakerConfig :=
  { cfgDemo with failureThreshold := 2 }

/-- Witness for C9: with failureThreshold 2, the interleaved demo sequence
with two failures ends OPEN. -/
theorem claim_C9_interleaved_failures_open_witness :
    1 ≤ cfgDemo9.failureThreshold ∧
    cfgDemo9.failureThreshold ≤ (sfDemo.filter isFail).length ∧
    ((CircuitBreaker.run cfgDemo9 (sfDemo.map sfToEvent)).state = CircuitState.OPEN ∧
      ∀ s : CircuitBreakerSt, s.state = CircuitState.CLOSED →
        (CircuitBreaker.recordSuccess cfgDemo9 s).failureCount = s.failureCount) :=
  ⟨by decide, by decide,
    claim_C9_interleaved_failures_open cfgDemo9 sfDemo (by decide) (by decide)⟩

/-- Breaker state after creating context "ctx-1" with a custom budget of one
unit of fuel (the spec's budget scenario). -/
def sFuel1 : CircuitBreakerSt :=
  (CircuitBreaker.createContext cfgDemo CircuitBreaker.init "ctx-1" "agent-1"
    { currentFuel := some 1 } 0).2

/-- The same state after one `recordUsage` call of 100 tokens / 10 cents:
fuel is now 0 while tokens remain within budget. -/
def sFuel0 : CircuitBreakerSt :=
  (CircuitBreaker.recordUsage sFuel1 "ctx-1" 100 10).2

/-- Claim C6: `canProceed` evaluates context-exists, fuel, tokens, turns,
cost, elapsed-time in that fixed order and surfaces exactly the first
violated check's error; in particular after one `recordUsage` on a
fuel-1 context it reports fuel depletion, not the token budget. -/
theorem claim_C6_canProceed_order :
    (∀ (s : CircuitBreakerSt) (cid : String) (now : Nat),
        s.contexts cid = none →
        CircuitBreaker.canProceed s cid now =
          Except.error ⟨"Context not found", CircuitBreakerErrorCode.BUDGET_EXCEEDED, cid⟩) ∧
    (∀ (s : CircuitBreakerSt) (cid : String) (c : IExecutionContext) (now : Nat),
        s.contexts cid = some c → c.budget.currentFuel ≤ 0 →
        CircuitBreaker.canProceed s cid now =
          Except.error ⟨"Fuel depleted", CircuitBreakerErrorCode.FUEL_DEPLETED, cid⟩) ∧
    (∀ (s : CircuitBreakerSt) (cid : String) (c : IExecutionContext) (now : Nat),
        s.contexts cid = some c → 0 < c.budget.currentFuel →
        c.budget.maxTokens ≤ c.tokensUsed →
        CircuitBreaker.canProceed s cid now =
          Except.error ⟨"Token budget exceeded", CircuitBreakerErrorCode.BUDGET_EXCEEDED, cid⟩) ∧
    (∀ (s : CircuitBreakerSt) (cid : String) (c : IExecutionContext) (now : Nat),
        s.contexts cid = some c → 0 < c.budget.currentFuel →
        c.tokensUsed < c.budget.maxTokens → c.budget.maxTurns ≤ c.turnsExecuted →
        CircuitBreaker.canProceed s cid now =
          Except.error ⟨"Max turns exceeded", CircuitBreakerErrorCode.MAX_TURNS_EXCEEDED, cid⟩) ∧
    (∀ (s : CircuitBreakerSt) (cid : String) (c : IExecutionContext) (now : Nat),
        s.contexts cid = some c → 0 < c.budget.currentFuel →
        c.tokensUsed < c.budget.maxTokens → c.turnsExecuted < c.budget.maxTurns →
        c.budget.maxCostCents ≤ c.costAccumulated →
        CircuitBreaker.canProceed s cid now =
          Except.error ⟨"Cost budget exceeded", CircuitBreakerErrorCode.BUDGET_EXCEEDED, cid⟩) ∧
    (∀ (s : CircuitBreakerSt) (cid : String) (c : IExecutionContext) (now : Nat),
        s.contexts cid = some c → 0 < c.budget.currentFuel →
        c.tokensUsed < c.budget.maxTokens → c.turnsExecuted < c.budget.maxTurns →
        c.costAccumulated < c.budget.maxCostCents →
        (c.budget.maxTimeMs : Int) ≤ (now : Int) - (c.startTime : Int) →
        CircuitBreaker.canProceed s cid now =
          Except.error ⟨"Execution timeout", CircuitBreakerErrorCode.TIMEOUT, cid⟩) ∧
    (∀ (s : CircuitBreakerSt) (cid : String) (c : IExecutionContext) (now : Nat),
        s.contexts cid = some c → 0 < c.budget.currentFuel →
        c.tokensUsed < c.budget.maxTokens → c.turnsExecuted < c.budget.maxTurns →
        c.costAccumulated < c.budget.maxCostCents →
        (now : Int) - (c.startTime : Int) < (c.budget.maxTimeMs : Int) →
        CircuitBreaker.canProceed s cid now = Except.ok true) ∧
    (CircuitBreaker.canProceed sFuel0 "ctx-1" 0 =
        Except.error ⟨"Fuel depleted", CircuitBreakerErrorCode.FUEL_DEPLETED, "ctx-1"⟩ ∧
      ∃ c, sFuel0.contexts "ctx-1" = some c ∧ c.tokensUsed < c.budget.maxTokens) := by
  have hex : ∃ c, sFuel0.contexts "ctx-1" = some c ∧ c.tokensUsed < c.budget.maxTokens := by
    have hc : sFuel0.contexts "ctx-1" = some
        { id := "ctx-1", agentId := "agent-1", startTime := 0,
          budget := { maxTokens := 1000, maxTurns := 10, maxTimeMs := 60000,
                      maxCostCents := 100, currentFuel := 0 },
          tokensUsed := 100, turnsExecuted := 1, costAccumulated := 10 } := rfl
    exact ⟨_, hc, by decide⟩
  refine ⟨?_, ?_, ?_, ?_, ?_, ?_, ?_, And.intro ?_ hex⟩
  · intro s cid now h
    simp [CircuitBreaker.canProceed, h]
  · intro s cid c now h hfuel
    simp [CircuitBreaker.canProceed, h, hfuel]
  · intro s cid c now h hfuel htok
    have h1 : ¬ c.budget.currentFuel ≤ 0 := by omega
    simp [CircuitBreaker.canProceed, h, h1, ge_iff_le, htok]
  · intro s cid c now h hfuel htok hturn
    have h1 : ¬ c.budget.currentFuel ≤ 0 := by omega
    have h2 : ¬ c.budget.maxTokens ≤ c.tokensUsed := by omega
    simp [CircuitBreaker.canProceed, h, h1, h2, ge_iff_le, hturn]
  · intro s cid c now h hfuel htok hturn hcost
    have h1 : ¬ c.budget.currentFuel ≤ 0 := by omega
    have h2 : ¬ c.budget.maxTokens ≤ c.tokensUsed := by omega
    have h3 : ¬ c.budget.maxTurns ≤ c.turnsExecuted := by omega
    simp [CircuitBreaker.canProceed, h, h1, h2, h3, ge_iff_le, hcost]
  · intro s cid c now h hfuel htok hturn hcost htime
    have h1 : ¬ c.budget.currentFuel ≤ 0 := by omega
    have h2 : ¬ c.budget.maxTokens ≤ c.tokensUsed := by omega
    have h3 : ¬ c.budget.maxTurns ≤ c.turnsExecuted := by omega
    have h4 : ¬ c.budget.maxCostCents ≤ c.costAccumulated := by omega
    simp [CircuitBreaker.canProceed, h, h1, h2, h3, h4, ge_iff_le, htime]
  · intro s cid c now h hfuel htok hturn hcost htime
    have h1 : ¬ c.budget.currentFuel ≤ 0 := by omega
    have h2 : ¬ c.budget.maxTokens ≤ c.tokensUsed := by omega
    have h3 : ¬ c.budget.maxTurns ≤ c.turnsExecuted := by omega
    have h4 : ¬ c.budget.maxCostCents ≤ c.costAccumulated := by omega
    have h5 : ¬ (c.budget.maxTimeMs : Int) ≤ (now : Int) - (c.startTime : Int) := by omega
    simp [CircuitBreaker.canProceed, h, h1, h2, h3, h4, h5, ge_iff_le]
  · rfl

/-- Witness for C6: a lookup of an unregistered context id. -/
theorem claim_C6_canProceed_order_witness :
    CircuitBreaker.init.contexts "missing" = none ∧
    CircuitBreaker.canProceed CircuitBreaker.init "missing" 0 =
      Except.error ⟨"Context not found", CircuitBreakerErrorCode.BUDGET_EXCEEDED, "missing"⟩ :=
  ⟨rfl, claim_C6_canProceed_order.1 CircuitBreaker.init "missing" 0 rfl⟩

/-- Claim C10: for an unregistered context id, both `canProceed` and
`recordUsage` report "Context not found" under error code BUDGET_EXCEEDED —
the same code genuine token- and cost-budget violations use. -/
theorem claim_C10_notFound_uses_budget_code :
    (∀ (s : CircuitBreakerSt) (cid : String) (now : Nat),
        s.contexts cid = none →
        ∃ e, CircuitBreaker.canProceed s cid now = Except.error e ∧
          e.message = "Context not found" ∧
          e.code = CircuitBreakerErrorCode.BUDGET_EXCEEDED) ∧
    (∀ (s : CircuitBreakerSt) (cid : String) (tokens costCents : Nat),
        s.contexts cid = none →
        CircuitBreaker.recordUsage s cid tokens costCents =
          (Except.error ⟨"Context not found", CircuitBreakerErrorCode.BUDGET_EXCEEDED, cid⟩, s)) ∧
    (∀ (s : CircuitBreakerSt) (cid : String) (c : IExecutionContext) (now : Nat),
        s.contexts cid = some c → 0 < c.budget.currentFuel →
        c.budget.maxTokens ≤ c.tokensUsed →
        ∃ e, CircuitBreaker.canProceed s cid now = Except.error e ∧
          e.message = "Token budget exceeded" ∧
          e.code = CircuitBreakerErrorCode.BUDGET_EXCEEDED) ∧
    (∀ (s : CircuitBreakerSt) (cid : String) (c : IExecutionContext) (now : Nat),
        s.contexts cid = some c → 0 < c.budget.currentFuel →
        c.tokensUsed < c.budget.maxTokens → c.turnsExecuted < c.budget.maxTurns →
        c.budget.maxCostCents ≤ c.costAccumulated →
        ∃ e, CircuitBreaker.canProceed s cid now = Except.error e ∧
          e.message = "Cost budget exceeded" ∧
          e.code = CircuitBreakerErrorCode.BUDGET_EXCEEDED) := by
  refine ⟨?_, ?_, ?_, ?_⟩
  · intro s cid now h
    exact ⟨⟨"Context not found", CircuitBreakerErrorCode.BUDGET_EXCEEDED, cid⟩,
      by simp [CircuitBreaker.canProceed, h], rfl, rfl⟩
  · intro s cid tokens costCents h
    simp [CircuitBreaker.recordUsage, h]
  · intro s cid c now h hfuel htok
    have h1 : ¬ c.budget.currentFuel ≤ 0 := by omega
    exact ⟨⟨"Token budget exceeded", CircuitBreakerErrorCode.BUDGET_EXCEEDED, cid⟩,
      by simp [CircuitBreaker.canProceed, h, h1, ge_iff_le, htok], rfl, rfl⟩
  · intro s cid c now h hfuel htok hturn hcost
    have h1 : ¬ c.budget.currentFuel ≤ 0 := by omega
    have h2 : ¬ c.budget.maxTokens ≤ c.tokensUsed := by omega
    have h3 : ¬ c.budget.maxTurns ≤ c.turnsExecuted := by omega
    exact ⟨⟨"Cost budget exceeded", CircuitBreakerErrorCode.BUDGET_EXCEEDED, cid⟩,
      by simp [CircuitBreaker.canProceed, h, h1, h2, h3, ge_iff_le, hcost], rfl, rfl⟩

/-- Witness for C10: `recordUsage` on an unregistered id. -/
theorem claim_C10_notFound_uses_budget_code_witness :
    CircuitBreaker.init.contexts "ghost" = none ∧
    CircuitBreaker.recordUsage CircuitBreaker.init "ghost" 5 7 =
      (Except.error ⟨"Context not found", CircuitBreakerErrorCode.BUDGET_EXCEEDED, "ghost"⟩,
        CircuitBreaker.init) :=
  ⟨rfl, claim_C10_notFound_uses_budget_code.2.1 CircuitBreaker.init "ghost" 5 7 rfl⟩

/-- `IResourceLimits` from monitor/resource-monitor.ts. -/
structure IResourceLimits where
  maxTokensPerMinute : Nat
  maxCostCentsPerMinute : Nat
  maxActiveAgents : Nat
  maxAgentTurns : Nat
  stuckThresholdMs : Nat
  budgetCents : Nat
deriving DecidableEq

/-- `ITokenUsageStats`: the token-usage part of a resource snapshot.
`budgetRemainingCents` is `limits.budgetCents - totalCostCents` and can be
negative. -/
structure ITokenUsageStats where
  totalTokens : Nat
  tokensPerMinute : Nat
  costCentsPerMinute : Nat
  budgetRemainingCents : Int
deriving DecidableEq

/-- `IPermissionResult` from monitor/resource-monitor.ts. -/
structure IPermissionResult where
  allowed : Bool
  reason : Option String := none
deriving DecidableEq

namespace ResourceMonitor

/-- `ResourceMonitor.canProceed`, as a function of the current snapshot's
token-usage stats and the configured limits. -/
def canProceed (limits : IResourceLimits) (u : ITokenUsageStats) :
    IPermissionResult :=
  if u.tokensPerMinute > limits.maxTokensPerMinute then
    { allowed := false, reason := some "Token rate limit exceeded" }
  else if u.costCentsPerMinute > limits.maxCostCentsPerMinute then
    { allowed := false, reason := some "Cost rate limit exceeded" }
  else if u.budgetRemainingCents ≤ 0 then
    { allowed := false, reason := some "Budget exhausted" }
  else
    { allowed := true }

/-- `ResourceMonitor.canStartAgent`, as a function of the active-agent count,
the snapshot's token-usage stats and the limits. -/
def canStartAgent (limits : IResourceLimits) (activeAgentCount : Nat)
    (u : ITokenUsageStats) : IPermissionResult :=
  if activeAgentCount ≥ limits.maxActiveAgents then
    { allowed := false,
      reason := some ("Maximum active agents (" ++ toString limits.maxActiveAgents
        ++ ") reached") }
  else
    canProceed limits u

end ResourceMonitor

/-- Limits with a token-rate cap of 100 and an agent cap of 1. -/
def demoLimits : IResourceLimits :=
  { maxTokensPerMinute := 100
    maxCostCentsPerMinute := 100
    maxActiveAgents := 1
    maxAgentTurns := 50
    stuckThresholdMs := 300000
    budgetCents := 1000 }

/-- A snapshot whose token rate (500/min) exceeds the demo limit while cost
and budget are fine. -/
def demoStats : ITokenUsageStats :=
  { totalTokens := 500
    tokensPerMinute := 500
    costCentsPerMinute := 0
    budgetRemainingCents := 1000 }

/-- Counterexample to C2: with both the token rate and the agent cap
exceeded, `canStartAgent` reports the agent-cap reason, not the token-rate
reason the claim requires. -/
theorem claim_C2_counterexample :
    demoLimits.maxTokensPerMinute < demoStats.tokensPerMinute ∧
    demoLimits.maxActiveAgents ≤ 1 ∧
    ResourceMonitor.canProceed demoLimits demoStats =
      { allowed := false, reason := some "Token rate limit exceeded" } ∧
    ResourceMonitor.canStartAgent demoLimits 1 demoStats =
      { allowed := false, reason := some "Maximum active agents (1) reached" } ∧
    ResourceMonitor.canStartAgent demoLimits 1 demoStats ≠
      { allowed := false, reason := some "Token rate limit exceeded" } := by
  refine ⟨by decide, by decide, rfl, rfl, by decide⟩

/-- Claim C2 (amended): `canProceed` reports the first failing check in the
order token rate, cost rate, remaining budget; `canStartAgent` checks the
active-agent cap first and only then delegates to `canProceed`, so when both
the token rate and the agent cap are exceeded the agent-cap reason is
reported. -/
theorem claim_C2_check_order :
    (∀ (limits : IResourceLimits) (u : ITokenUsageStats),
        limits.maxTokensPerMinute < u.tokensPerMinute →
        ResourceMonitor.canProceed limits u =
          { allowed := false, reason := some "Token rate limit exceeded" }) ∧
    (∀ (limits : IResourceLimits) (u : ITokenUsageStats),
        u.tokensPerMinute ≤ limits.maxTokensPerMinute →
        limits.maxCostCentsPerMinute < u.costCentsPerMinute →
        ResourceMonitor.canProceed limits u =
          { allowed := false, reason := some "Cost rate limit exceeded" }) ∧
    (∀ (limits : IResourceLimits) (u : ITokenUsageStats),
        u.tokensPerMinute ≤ limits.maxTokensPerMinute →
        u.costCentsPerMinute ≤ limits.maxCostCentsPerMinute →
        u.budgetRemainingCents ≤ 0 →
        ResourceMonitor.canProceed limits u =
          { allowed := false, reason := some "Budget exhausted" }) ∧
    (∀ (limits : IResourceLimits) (u : ITokenUsageStats),
        u.tokensPerMinute ≤ limits.maxTokensPerMinute →
        u.costCentsPerMinute ≤ limits.maxCostCentsPerMinute →
        0 < u.budgetRemainingCents →
        ResourceMonitor.canProceed limits u = { allowed := true, reason := none }) ∧
    (∀ (limits : IResourceLimits) (n : Nat) (u : ITokenUsageStats),
        limits.maxActiveAgents ≤ n →
        ResourceMonitor.canStartAgent limits n u =
          { allowed := false,
            reason := some ("Maximum active agents ("
              ++ toString limits.maxActiveAgents ++ ") reached") }) ∧
    (∀ (limits : IResourceLimits) (n : Nat) (u : ITokenUsageStats),
        n < limits.maxActiveAgents →
        ResourceMonitor.canStartAgent limits n u =
          ResourceMonitor.canProceed limits u) := by
  refine ⟨?_, ?_, ?_, ?_, ?_, ?_⟩
  · intro limits u h
    simp [ResourceMonitor.canProceed, h]
  · intro limits u h1 h2
    have h1' : ¬ limits.maxTokensPerMinute < u.tokensPerMinute := by omega
    simp [ResourceMonitor.canProceed, h1', h2]
  · intro limits u h1 h2 h3
    have h1' : ¬ limits.maxTokensPerMinute < u.tokensPerMinute := by omega
    have h2' : ¬ limits.maxCostCentsPerMinute < u.costCentsPerMinute := by omega
    simp [ResourceMonitor.canProceed, h1', h2', h3]
  · intro limits u h1 h2 h3
    have h1' : ¬ limits.maxTokensPerMinute < u.tokensPerMinute := by omega
    have h2' : ¬ limits.maxCostCentsPerMinute < u.costCentsPerMinute := by omega
    have h3' : ¬ u.budgetRemainingCents ≤ 0 := by omega
    simp [ResourceMonitor.canProceed, h1', h2', h3']
  · intro limits n u h
    simp [ResourceMonitor.canStartAgent, ge_iff_le, h]
  · intro limits n u h
    have h' : ¬ limits.maxActiveAgents ≤ n := by omega
    simp [ResourceMonitor.canStartAgent, ge_iff_le, h']

/-- Witness for the amended C2: the demo snapshot's token-rate violation
surfaces the token-rate reason through `canProceed`. -/
theorem claim_C2_check_order_witness :
    demoLimits.maxTokensPerMinute < demoStats.tokensPerMinute ∧
    ResourceMonitor.canProceed demoLimits demoStats =
      { allowed := false, reason := some "Token rate limit exceeded" } :=
  ⟨by decide, claim_C2_check_order.1 demoLimits demoStats (by decide)⟩

/-- `ApprovalLevel` from packages/shared/src/types/index.ts. -/
inductive ApprovalLevel where
  | AUTO
  | NOTIFY
  | APPROVE
  | BLOCK
deriving DecidableEq

/-- `ApprovalStatus` from safety/approval-gate.ts. -/
inductive ApprovalStatus where
  | PENDING
  | APPROVED
  | DENIED
  | TIMEOUT
  | AUTO_APPROVED
deriving DecidableEq

/-- `ApprovalGateErrorCode` from safety/approval-gate.ts. -/
inductive ApprovalGateErrorCode where
  | REQUEST_NOT_FOUND
  | ALREADY_RESOLVED
  | EXPIRED
  | BLOCKED
deriving DecidableEq

/-- `ApprovalGateError` (message, code, optional requestId). -/
structure ApprovalGateError where
  message : String
  code : ApprovalGateErrorCode
  requestId : Option String
deriving DecidableEq

/-- `IApprovalRequest` from safety/approval-gate.ts (the free-form `context`
record is elided). -/
structure IApprovalRequest where
  id : String
  operation : String
  description : String
  level : ApprovalLevel
  agentId : String
  createdAt : Nat
  expiresAt : Nat
  status : ApprovalStatus
  resolvedAt : Option Nat
  resolvedBy : Option String
  reason : Option String
deriving DecidableEq

/-- `IApprovalGateConfig` from safety/approval-gate.ts. -/
structure IApprovalGateConfig where
  defaultTimeoutMs : Nat
  autoApproveLevel : ApprovalLevel

/-- Look up a key in an insertion-ordered association list (JS `Map.get`). -/
def assocGet {β : Type} : List (String × β) → String → Option β
  | [], _ => none
  | (k', v') :: rest, k => if k' = k then some v' else assocGet rest k

/-- Insert or replace a key in an insertion-ordered association list
(JS `Map.set`). -/
def assocSet {β : Type} : List (String × β) → String → β → List (String × β)
  | [], k, v => [(k, v)]
  | (k', v') :: rest, k, v =>
      if k' = k then (k, v) :: rest else (k', v') :: assocSet rest k v

/-- Setting then getting the same key yields the new value. -/
theorem assocGet_assocSet_self {β : Type} (l : List (String × β)) (k : String)
    (v : β) : assocGet (assocSet l k v) k = some v := by
  induction l with
  | nil => simp [assocSet, assocGet]
  | cons p rest ih =>
      obtain ⟨k', v'⟩ := p
      by_cases h : k' = k
      · simp [assocSet, assocGet, h]
      · simp [assocSet, assocGet, h, ih]

/-- The mutable fields of the `ApprovalGate` class: the request map, the
broadcast request stream (modelled as the log of broadcast requests), and
the request counter. -/
structure GateState where
  requests : List (String × IApprovalRequest)
  streamLog : List IApprovalRequest
  requestCounter : Nat
deriving DecidableEq

namespace ApprovalGate

/-- A gate with no requests, an empty stream and counter 0. -/
def init : GateState := { requests := [], streamLog := [], requestCounter := 0 }

/-- The `levelOrder` array `[AUTO, NOTIFY, APPROVE, BLOCK]` of
`shouldAutoApprove`, as the index of each level in it. -/
def levelIndex : ApprovalLevel → Nat
  | ApprovalLevel.AUTO => 0
  | ApprovalLevel.NOTIFY => 1
  | ApprovalLevel.APPROVE => 2
  | ApprovalLevel.BLOCK => 3

/-- `ApprovalGate.shouldAutoApprove`: requested index at or below the
configured auto-approve level's index. -/
def shouldAutoApprove (cfg : IApprovalGateConfig) (level : ApprovalLevel) : Bool :=
  decide (levelIndex level ≤ levelIndex cfg.autoApproveLevel)

/-- `ApprovalGate.createRequest`: build a fresh PENDING request and bump the
counter. -/
def createRequest (cfg : IApprovalGateConfig) (st : GateState)
    (operation description : String) (level : ApprovalLevel) (agentId : String)
    (timeoutMs : Option Nat) (now : Nat) : IApprovalRequest × GateState :=
  let counter := st.requestCounter + 1
  let timeout := timeoutMs.getD cfg.defaultTimeoutMs
  ({ id := "apr_" ++ toString now ++ "_" ++ toString counter
     operation := operation
     description := description
     level := level
     agentId := agentId
     createdAt := now
     expiresAt := now + timeout
     status := ApprovalStatus.PENDING
     resolvedAt := none
     resolvedBy := none
     reason := none },
    { st with requestCounter := counter })

/-- `ApprovalGate.requestApproval`: refuse BLOCK; auto-approve AUTO or any
level at/below the configured threshold; otherwise store a PENDING request
and broadcast it on the request stream. -/
def requestApproval (cfg : IApprovalGateConfig) (st : GateState)
    (operation description : String) (level : ApprovalLevel) (agentId : String)
    (timeoutMs : Option Nat) (now : Nat) :
    Except ApprovalGateError IApprovalRequest × GateState :=
  if level = ApprovalLevel.BLOCK then
    (Except.error ⟨"Operation is blocked", ApprovalGateErrorCode.BLOCKED, none⟩, st)
  else if level = ApprovalLevel.AUTO ∨ shouldAutoApprove cfg level = true then
    let created := createRequest cfg st operation description level agentId timeoutMs now
    let autoRequest :=
      { created.1 with status := ApprovalStatus.AUTO_APPROVED, resolvedAt := some now }
    (Except.ok autoRequest,
      { created.2 with requests := assocSet created.2.requests autoRequest.id autoRequest })
  else
    let created := createRequest cfg st operation description level agentId timeoutMs now
    (Except.ok created.1,
      { created.2 with
          requests := assocSet created.2.requests created.1.id created.1
          streamLog := created.2.streamLog ++ [created.1] })

/-- `ApprovalGate.resolveRequest`: transition a PENDING, unexpired request. -/
def resolveRequest (st : GateState) (requestId : String) (status : ApprovalStatus)
    (resolvedBy : String) (reason : Option String) (now : Nat) :
    Except ApprovalGateError IApprovalRequest × GateState :=
  match assocGet st.requests requestId with
  | none =>
      (Except.error ⟨"Request not found", ApprovalGateErrorCode.REQUEST_NOT_FOUND,
        some requestId⟩, st)
  | some request =>
      if request.status ≠ ApprovalStatus.PENDING then
        (Except.error ⟨"Request already resolved", ApprovalGateErrorCode.ALREADY_RESOLVED,
          some requestId⟩, st)
      else if now > request.expiresAt then
        (Except.error ⟨"Request expired", ApprovalGateErrorCode.EXPIRED, some requestId⟩, st)
      else
        let request' :=
          { request with
              status := status
              resolvedAt := some now
              resolvedBy := some resolvedBy
              reason := reason }
        (Except.ok request', { st with requests := assocSet st.requests requestId request' })

/-- `ApprovalGate.approve`. -/
def approve (st : GateState) (requestId approvedBy : String) (reason : Option String)
    (now : Nat) : Except ApprovalGateError IApprovalRequest × GateState :=
  resolveRequest st requestId ApprovalStatus.APPROVED approvedBy reason now

/-- `ApprovalGate.deny`. -/
def deny (st : GateState) (requestId deniedBy : String) (reason : String)
    (now : Nat) : Except ApprovalGateError IApprovalRequest × GateState :=
  resolveRequest st requestId ApprovalStatus.DENIED deniedBy (some reason) now

/-- `ApprovalGate.handleTimeout`: a still-PENDING request becomes TIMEOUT. -/
def handleTimeout (st : GateState) (requestId : String) (now : Nat) : GateState :=
  match assocGet st.requests requestId with
  | none => st
  | some request =>
      if request.status = ApprovalStatus.PENDING then
        { st with
            requests := assocSet st.requests requestId
              { request with status := ApprovalStatus.TIMEOUT, resolvedAt := some now } }
      else st

/-- `ApprovalGate.isApproved`: APPROVED or AUTO_APPROVED only. -/
def isApproved (st : GateState) (requestId : String) : Bool :=
  match assocGet st.requests requestId with
  | none => false
  | some request =>
      decide (request.status = ApprovalStatus.APPROVED ∨
        request.status = ApprovalStatus.AUTO_APPROVED)

/-- `ApprovalGate.getPendingRequests`. -/
def getPendingRequests (st : GateState) : List IApprovalRequest :=
  (st.requests.map Prod.snd).filter (fun r => decide (r.status = ApprovalStatus.PENDING))

end ApprovalGate

/-- A gate configuration: 5-minute default timeout, auto-approve at or below
NOTIFY. -/
def gateCfg : IApprovalGateConfig :=
  { defaultTimeoutMs := 300000, autoApproveLevel := ApprovalLevel.NOTIFY }

/-- Claim C7: requestApproval refuses BLOCK synchronously leaving the state
(and hence the pending list) untouched; AUTO or any level at/below the
auto-approve threshold yields an AUTO_APPROVED request with a resolved
timestamp that isApproved accepts; every other level yields a PENDING
request broadcast on the request stream. -/
theorem claim_C7_requestApproval_levels :
    (∀ (cfg : IApprovalGateConfig) (st : GateState)
        (operation description agentId : String) (timeoutMs : Option Nat) (now : Nat),
        ApprovalGate.requestApproval cfg st operation description ApprovalLevel.BLOCK
            agentId timeoutMs now =
          (Except.error ⟨"Operation is blocked", ApprovalGateErrorCode.BLOCKED, none⟩, st) ∧
        ApprovalGate.getPendingRequests
            (ApprovalGate.requestApproval cfg st operation description ApprovalLevel.BLOCK
              agentId timeoutMs now).2 =
          ApprovalGate.getPendingRequests st) ∧
    (∀ (cfg : IApprovalGateConfig) (st : GateState)
        (operation description : String) (level : ApprovalLevel) (agentId : String)
        (timeoutMs : Option Nat) (now : Nat),
        level ≠ ApprovalLevel.BLOCK →
        (level = ApprovalLevel.AUTO ∨ ApprovalGate.shouldAutoApprove cfg level = true) →
        ∃ r, (ApprovalGate.requestApproval cfg st operation description level agentId
              timeoutMs now).1 = Except.ok r ∧
          r.status = ApprovalStatus.AUTO_APPROVED ∧
          r.resolvedAt = some now ∧
          ApprovalGate.isApproved
            (ApprovalGate.requestApproval cfg st operation description level agentId
              timeoutMs now).2 r.id = true) ∧
    (∀ (cfg : IApprovalGateConfig) (st : GateState)
        (operation description : String) (level : ApprovalLevel) (agentId : String)
        (timeoutMs : Option Nat) (now : Nat),
        level ≠ ApprovalLevel.BLOCK →
        ¬ (level = ApprovalLevel.AUTO ∨ ApprovalGate.shouldAutoApprove cfg level = true) →
        ∃ r, (ApprovalGate.requestApproval cfg st operation description level agentId
              timeoutMs now).1 = Except.ok r ∧
          r.status = ApprovalStatus.PENDING ∧
          (ApprovalGate.requestApproval cfg st operation description level agentId
              timeoutMs now).2.streamLog = st.streamLog ++ [r]) := by
  refine ⟨?_, ?_, ?_⟩
  · intro cfg st operation description agentId timeoutMs now
    exact ⟨rfl, rfl⟩
  · intro cfg st operation description level agentId timeoutMs now hblock hauto
    refine ⟨{ (ApprovalGate.createRequest cfg st operation description level agentId
        timeoutMs now).1 with
          status := ApprovalStatus.AUTO_APPROVED, resolvedAt := some now }, ?_, rfl, rfl, ?_⟩
    · simp only [ApprovalGate.requestApproval, if_neg hblock, if_pos hauto]
    · simp only [ApprovalGate.requestApproval, if_neg hblock, if_pos hauto]
      simp [ApprovalGate.isApproved, assocGet_assocSet_self]
  · intro cfg st operation description level agentId timeoutMs now hblock hnauto
    refine ⟨(ApprovalGate.createRequest cfg st operation description level agentId
        timeoutMs now).1, ?_, rfl, ?_⟩
    · simp only [ApprovalGate.requestApproval, if_neg hblock, if_neg hnauto]
    · simp only [ApprovalGate.requestApproval, if_neg hblock, if_neg hnauto]
      rfl

/-- Witness for C7: an AUTO-level request on the fresh gate is immediately
AUTO_APPROVED and isApproved. -/
theorem claim_C7_requestApproval_levels_witness :
    (ApprovalLevel.AUTO ≠ ApprovalLevel.BLOCK ∧
      (ApprovalLevel.AUTO = ApprovalLevel.AUTO ∨
        ApprovalGate.shouldAutoApprove gateCfg ApprovalLevel.AUTO = true)) ∧
    (∃ r, (ApprovalGate.requestApproval gateCfg ApprovalGate.init "read_file"
          "Read a file" ApprovalLevel.AUTO "agent-1" none 0).1 = Except.ok r ∧
      r.status = ApprovalStatus.AUTO_APPROVED ∧
      r.resolvedAt = some 0 ∧
      ApprovalGate.isApproved
        (ApprovalGate.requestApproval gateCfg ApprovalGate.init "read_file"
          "Read a file" ApprovalLevel.AUTO "agent-1" none 0).2 r.id = true) :=
  ⟨⟨by decide, Or.inl rfl⟩,
    claim_C7_requestApproval_levels.2.1 gateCfg ApprovalGate.init "read_file"
      "Read a file" ApprovalLevel.AUTO "agent-1" none 0 (by decide) (Or.inl rfl)⟩

namespace ApprovalGate

/-- Resolving an existing PENDING, unexpired request succeeds and records the
target status, the resolver and the reason. -/
theorem resolve_success (st : GateState) (requestId : String)
    (req : IApprovalRequest) (status : ApprovalStatus)
    (resolvedBy : String) (reason : Option String) (now : Nat)
    (h : assocGet st.requests requestId = some req)
    (hst : req.status = ApprovalStatus.PENDING)
    (hle : now ≤ req.expiresAt) :
    resolveRequest st requestId status resolvedBy reason now =
      (Except.ok { req with
          status := status
          resolvedAt := some now
          resolvedBy := some resolvedBy
          reason := reason },
        { st with
            requests := assocSet st.requests requestId
              ({ req with
                  status := status
                  resolvedAt := some now
                  resolvedBy := some resolvedBy
                  reason := reason }) }) := by
  have h2 : ¬ req.expiresAt < now := by omega
  simp [resolveRequest, h, hst, h2]

end ApprovalGate

/-- Claim C8: approve and deny succeed only on an existing, PENDING,
unexpired request, recording resolver and reason; resolving a missing,
already-resolved or expired request returns the corresponding error and
leaves the gate state unchanged; after a successful resolution, a second
approve/deny on the same request fails with ALREADY_RESOLVED and changes
nothing. -/
theorem claim_C8_resolve_exactly_once :
    (∀ (st : GateState) (requestId approvedBy : String) (reason : Option String)
        (now : Nat),
        ApprovalGate.approve st requestId approvedBy reason now =
          ApprovalGate.resolveRequest st requestId ApprovalStatus.APPROVED
            approvedBy reason now) ∧
    (∀ (st : GateState) (requestId deniedBy reason : String) (now : Nat),
        ApprovalGate.deny st requestId deniedBy reason now =
          ApprovalGate.resolveRequest st requestId ApprovalStatus.DENIED
            deniedBy (some reason) now) ∧
    (∀ (st : GateState) (requestId : String) (status : ApprovalStatus)
        (resolvedBy : String) (reason : Option String) (now : Nat),
        assocGet st.requests requestId = none →
        ApprovalGate.resolveRequest st requestId status resolvedBy reason now =
          (Except.error ⟨"Request not found", ApprovalGateErrorCode.REQUEST_NOT_FOUND,
            some requestId⟩, st)) ∧
    (∀ (st : GateState) (requestId : String) (req : IApprovalRequest)
        (status : ApprovalStatus) (resolvedBy : String) (reason : Option String)
        (now : Nat),
        assocGet st.requests requestId = some req →
        req.status ≠ ApprovalStatus.PENDING →
        ApprovalGate.resolveRequest st requestId status resolvedBy reason now =
          (Except.error ⟨"Request already resolved", ApprovalGateErrorCode.ALREADY_RESOLVED,
            some requestId⟩, st)) ∧
    (∀ (st : GateState) (requestId : String) (req : IApprovalRequest)
        (status : ApprovalStatus) (resolvedBy : String) (reason : Option String)
        (now : Nat),
        assocGet st.requests requestId = some req →
        req.status = ApprovalStatus.PENDING →
        req.expiresAt < now →
        ApprovalGate.resolveRequest st requestId status resolvedBy reason now =
          (Except.error ⟨"Request expired", ApprovalGateErrorCode.EXPIRED,
            some requestId⟩, st)) ∧
    (∀ (st : GateState) (requestId : String) (req : IApprovalRequest)
        (status : ApprovalStatus) (resolvedBy : String) (reason : Option String)
        (now : Nat),
        assocGet st.requests requestId = some req →
        req.status = ApprovalStatus.PENDING →
        now ≤ req.expiresAt →
        ApprovalGate.resolveRequest st requestId status resolvedBy reason now =
          (Except.ok { req with
              status := status
              resolvedAt := some now
              resolvedBy := some resolvedBy
              reason := reason },
            { st with
                requests := assocSet st.requests requestId
                  ({ req with
                      status := status
                      resolvedAt := some now
                      resolvedBy := some resolvedBy
                      reason := reason }) })) ∧
    (∀ (st : GateState) (requestId : String) (req : IApprovalRequest)
        (status : ApprovalStatus) (resolvedBy : String) (reason : Option String)
        (now : Nat) (status2 : ApprovalStatus) (resolvedBy2 : String)
        (reason2 : Option String) (now2 : Nat),
        assocGet st.requests requestId = some req →
        req.status = ApprovalStatus.PENDING →
        now ≤ req.expiresAt →
        status ≠ ApprovalStatus.PENDING →
        ApprovalGate.resolveRequest
            (ApprovalGate.resolveRequest st requestId status resolvedBy reason now).2
            requestId status2 resolvedBy2 reason2 now2 =
          (Except.error ⟨"Request already resolved", ApprovalGateErrorCode.ALREADY_RESOLVED,
            some requestId⟩,
            (ApprovalGate.resolveRequest st requestId status resolvedBy reason now).2)) := by
  refine ⟨?_, ?_, ?_, ?_, ?_, ?_, ?_⟩
  · intro st requestId approvedBy reason now
    rfl
  · intro st requestId deniedBy reason now
    rfl
  · intro st requestId status resolvedBy reason now h
    simp [ApprovalGate.resolveRequest, h]
  · intro st requestId req status resolvedBy reason now h hne
    simp [ApprovalGate.resolveRequest, h, hne]
  · intro st requestId req status resolvedBy reason now h hst hexp
    simp [ApprovalGate.resolveRequest, h, hst, hexp]
  · intro st requestId req status resolvedBy reason now h hst hle
    exact ApprovalGate.resolve_success st requestId req status resolvedBy reason now h hst hle
  · intro st requestId req status resolvedBy reason now status2 resolvedBy2 reason2 now2
      h hst hle hne
    rw [ApprovalGate.resolve_success st requestId req status resolvedBy reason now h hst hle]
    simp [ApprovalGate.resolveRequest, assocGet_assocSet_self, hne]

/-- A pending APPROVE-level request on the demo gate, created at time 0. -/
def pendingGate : GateState :=
  (ApprovalGate.requestApproval gateCfg ApprovalGate.init "deploy" "Deploy to prod"
    ApprovalLevel.APPROVE "agent-1" none 0).2

/-- The pending request stored in `pendingGate`. -/
def pendingReq : IApprovalRequest :=
  { id := "apr_0_1"
    operation := "deploy"
    description := "Deploy to prod"
    level := ApprovalLevel.APPROVE
    agentId := "agent-1"
    createdAt := 0
    expiresAt := 300000
    status := ApprovalStatus.PENDING
    resolvedAt := none
    resolvedBy := none
    reason := none }

/-- Witness for C8: approving the stored pending request at time 100
succeeds and records the resolver. -/
theorem claim_C8_resolve_exactly_once_witness :
    assocGet pendingGate.requests "apr_0_1" = some pendingReq ∧
    pendingReq.status = ApprovalStatus.PENDING ∧
    100 ≤ pendingReq.expiresAt ∧
    ApprovalGate.resolveRequest pendingGate "apr_0_1" ApprovalStatus.APPROVED
        "human-admin" none 100 =
      (Except.ok { pendingReq with
          status := ApprovalStatus.APPROVED
          resolvedAt := some 100
          resolvedBy := some "human-admin"
          reason := none },
        { pendingGate with
            requests := assocSet pendingGate.requests "apr_0_1"
              ({ pendingReq with
                  status := ApprovalStatus.APPROVED
                  resolvedAt := some 100
                  resolvedBy := some "human-admin"
                  reason := none }) }) :=
  ⟨rfl, rfl, by decide,
    claim_C8_resolve_exactly_once.2.2.2.2.2.1 pendingGate "apr_0_1" pendingReq
      ApprovalStatus.APPROVED "human-admin" none 100 rfl rfl (by decide)⟩

/-- `Priority` from packages/shared/src/types/index.ts: CRITICAL=0, HIGH=1,
MEDIUM=2, LOW=3 (lower value = higher urgency). -/
inductive Priority where
  | CRITICAL
  | HIGH
  | MEDIUM
  | LOW
deriving DecidableEq

/-- The queue's `priorities = [0, 1, 2, 3]` iteration order. -/
def priorities : List Priority :=
  [Priority.CRITICAL, Priority.HIGH, Priority.MEDIUM, Priority.LOW]

/-- `IScheduledTask` from types/kernel.ts (the `execute` thunk is elided;
its eventual fate is supplied at settlement time). -/
structure IScheduledTask where
  id : String
  priority : Priority
  createdAt : Nat
  timeoutMs : Nat
deriving DecidableEq

/-- The `PriorityQueue` class: `Map<Priority, IScheduledTask[]>`. -/
structure PQueue where
  buckets : Priority → List IScheduledTask

namespace PriorityQueue

/-- The constructor: every priority bucket empty. -/
def empty : PQueue := ⟨fun _ => []⟩

/-- `PriorityQueue.enqueue`: push onto the tail of the task's bucket. -/
def enqueue (q : PQueue) (t : IScheduledTask) : PQueue :=
  ⟨fun p => if p = t.priority then q.buckets p ++ [t] else q.buckets p⟩

/-- The loop body of `PriorityQueue.dequeue`: walk the given priorities and
shift the head of the first non-empty bucket. -/
def dequeueFrom (q : PQueue) : List Priority → Option IScheduledTask × PQueue
  | [] => (none, q)
  | p :: rest =>
      match q.buckets p with
      | [] => dequeueFrom q rest
      | t :: ts => (some t, ⟨fun p' => if p' = p then ts else q.buckets p'⟩)

/-- `PriorityQueue.dequeue`. -/
def dequeue (q : PQueue) : Option IScheduledTask × PQueue := dequeueFrom q priorities

/-- `PriorityQueue.toArray`: all tasks in priority order. -/
def toArray (q : PQueue) : List IScheduledTask := (priorities.map q.buckets).flatten

/-- `PriorityQueue.size`. -/
def size (q : PQueue) : Nat := (priorities.map (fun p => (q.buckets p).length)).sum

/-- `PriorityQueue.isEmpty`. -/
def isEmpty (q : PQueue) : Bool := priorities.all (fun p => (q.buckets p).isEmpty)

/-- What `dequeueFrom` returns is the head of the concatenation of the
walked buckets. -/
theorem dequeueFrom_fst (q : PQueue) :
    ∀ ps : List Priority, (dequeueFrom q ps).1 = ((ps.map q.buckets).flatten).head? := by
  intro ps
  induction ps with
  | nil => rfl
  | cons p rest ih =>
      cases h : q.buckets p with
      | nil => simp [dequeueFrom, h, ih]
      | cons t ts => simp [dequeueFrom, h]

end PriorityQueue

/-- `ITaskExecutionResult` from scheduler.ts (the opaque `result` payload is
elided). -/
structure ITaskExecutionResult where
  taskId : String
  executionTimeMs : Nat
  completedAt : Nat
deriving DecidableEq

/-- How the race between a task's work and its timeout can settle: the work
resolves first, the work rejects first, or the timeout fires first. -/
inductive TaskOutcome where
  | resolves
  | rejects
  | timesOut
deriving DecidableEq

/-- `ISchedulerConfig` from types/kernel.ts. -/
structure ISchedulerConfig where
  maxConcurrent : Nat
  defaultTimeoutMs : Nat
  priorityLevels : Nat

/-- The mutable fields of the `Scheduler` class: the queue, the running map
(id ↦ admission time), the completion stream (as the log of records pushed
onto it) and the counters. -/
structure SchedulerSt where
  queue : PQueue
  running : List (String × Nat)
  completions : List ITaskExecutionResult
  completedCount : Nat
  failedCount : Nat
  isRunning : Bool

namespace Scheduler

/-- The constructor's initial state. -/
def init : SchedulerSt :=
  { queue := PriorityQueue.empty
    running := []
    completions := []
    completedCount := 0
    failedCount := 0
    isRunning := false }

/-- `Map.get` on the running map. -/
def lookupKey : List (String × Nat) → String → Option Nat
  | [], _ => none
  | (k, v) :: rest, id => if k = id then some v else lookupKey rest id

/-- `Map.delete` on the running map. -/
def eraseKey : List (String × Nat) → String → List (String × Nat)
  | [], _ => []
  | (k, v) :: rest, id =>
      if k = id then eraseKey rest id else (k, v) :: eraseKey rest id

/-- Deleting a key never lengthens the running map. -/
theorem eraseKey_length_le (l : List (String × Nat)) (id : String) :
    (eraseKey l id).length ≤ l.length := by
  induction l with
  | nil => simp [eraseKey]
  | cons p rest ih =>
      obtain ⟨k, v⟩ := p
      by_cases h : k = id
      · simp only [eraseKey, if_pos h]
        exact Nat.le_succ_of_le ih
      · simp only [eraseKey, if_neg h, List.length_cons]
        omega

/-- The settlement of `executeTask`'s race for an admitted task: on a
resolution the completion record is pushed and the completed counter bumped;
on a rejection or timeout only the failed counter is bumped; in both cases
the task leaves the running map (the `finally` block). -/
def settleTask (st : SchedulerSt) (taskId : String) (outcome : TaskOutcome)
    (now : Nat) : SchedulerSt :=
  match lookupKey st.running taskId with
  | none => st
  | some startedAt =>
      match outcome with
      | TaskOutcome.resolves =>
          { st with
              completions := st.completions
                ++ [{ taskId := taskId, executionTimeMs := now - startedAt,
                      completedAt := now }]
              completedCount := st.completedCount + 1
              running := eraseKey st.running taskId }
      | TaskOutcome.rejects =>
          { st with
              failedCount := st.failedCount + 1
              running := eraseKey st.running taskId }
      | TaskOutcome.timesOut =>
          { st with
              failedCount := st.failedCount + 1
              running := eraseKey st.running taskId }

/-- The scheduler's observable transitions: `schedule` enqueues; `start` and
`stop` toggle the running flag; one `processQueue` iteration admits the
highest-priority task only when the scheduler is running and a slot is free;
a settlement resolves an in-flight task's race. -/
inductive Event where
  | schedule (t : IScheduledTask)
  | start
  | stop
  | admitNext (now : Nat)
  | settle (taskId : String) (outcome : TaskOutcome) (now : Nat)

/-- One scheduler transition. -/
def step (cfg : ISchedulerConfig) (st : SchedulerSt) : Event → SchedulerSt
  | Event.schedule t => { st with queue := PriorityQueue.enqueue st.queue t }
  | Event.start => { st with isRunning := true }
  | Event.stop => { st with isRunning := false }
  | Event.admitNext now =>
      if st.isRunning ∧ st.running.length < cfg.maxConcurrent then
        match PriorityQueue.dequeue st.queue with
        | (some t, q') =>
            { st with queue := q', running := st.running ++ [(t.id, now)] }
        | (none, _) => st
      else st
  | Event.settle taskId outcome now => settleTask st taskId outcome now

/-- Run a sequence of transitions from the freshly constructed scheduler. -/
def run (cfg : ISchedulerConfig) (events : List Event) : SchedulerSt :=
  events.foldl (step cfg) init

/-- Every single transition preserves the concurrency bound. -/
theorem step_preserves_cap (cfg : ISchedulerConfig) (st : SchedulerSt)
    (e : Event) (h : st.running.length ≤ cfg.maxConcurrent) :
    (step cfg st e).running.length ≤ cfg.maxConcurrent := by
  cases e with
  | schedule t => exact h
  | start => exact h
  | stop => exact h
  | admitNext now =>
      simp only [step]
      split_ifs with hg
      · cases hd : PriorityQueue.dequeue st.queue with
        | mk fst snd =>
            cases fst with
            | none => simpa using h
            | some t =>
                simp only [List.length_append, List.length_cons, List.length_nil]
                omega
      · exact h
  | settle taskId outcome now =>
      simp only [step, settleTask]
      cases hl : lookupKey st.running taskId with
      | none => exact h
      | some startedAt =>
          cases outcome <;>
            simpa using le_trans (eraseKey_length_le st.running taskId) h

end Scheduler

/-- Claim C4: for every scheduler configuration and every transition
sequence, the running set never exceeds the concurrency cap; and an
admission attempt while the cap is reached changes nothing (it waits). -/
theorem claim_C4_concurrency_cap (cfg : ISchedulerConfig)
    (events : List Scheduler.Event) :
    (Scheduler.run cfg events).running.length ≤ cfg.maxConcurrent ∧
    (∀ (st : SchedulerSt) (now : Nat),
      cfg.maxConcurrent ≤ st.running.length →
      Scheduler.step cfg st (Scheduler.Event.admitNext now) = st) := by
  constructor
  · have haux : ∀ (evs : List Scheduler.Event) (s0 : SchedulerSt),
        s0.running.length ≤ cfg.maxConcurrent →
        (evs.foldl (Scheduler.step cfg) s0).running.length ≤ cfg.maxConcurrent := by
      intro evs
      induction evs with
      | nil => intro s0 h0; exact h0
      | cons e rest ih =>
          intro s0 h0
          exact ih (Scheduler.step cfg s0 e) (Scheduler.step_preserves_cap cfg s0 e h0)
    exact haux events Scheduler.init (by simp [Scheduler.init])
  · intro st now hfull
    have hng : ¬ (st.isRunning ∧ st.running.length < cfg.maxConcurrent) := by
      rintro ⟨-, hlt⟩
      omega
    simp [Scheduler.step, hng]

/-- A scheduler configuration with concurrency cap 2 (the test suite's). -/
def cfgSched : ISchedulerConfig :=
  { maxConcurrent := 2, defaultTimeoutMs := 5000, priorityLevels := 4 }

/-- Three scheduled tasks followed by start and three admission attempts:
only two can be admitted. -/
def capDemoEvents : List Scheduler.Event :=
  [Scheduler.Event.schedule { id := "a", priority := Priority.MEDIUM, createdAt := 0, timeoutMs := 5000 },
    Scheduler.Event.schedule { id := "b", priority := Priority.MEDIUM, createdAt := 0, timeoutMs := 5000 },
    Scheduler.Event.schedule { id := "c", priority := Priority.MEDIUM, createdAt := 0, timeoutMs := 5000 },
    Scheduler.Event.start,
    Scheduler.Event.admitNext 1, Scheduler.Event.admitNext 2, Scheduler.Event.admitNext 3]

/-- Witness for C4: after the demo trace the cap holds with the running set
full, and a further admission attempt is a no-op. -/
theorem claim_C4_concurrency_cap_witness :
    (Scheduler.run cfgSched capDemoEvents).running.length ≤ cfgSched.maxConcurrent ∧
    cfgSched.maxConcurrent ≤ (Scheduler.run cfgSched capDemoEvents).running.length ∧
    Scheduler.step cfgSched (Scheduler.run cfgSched capDemoEvents)
        (Scheduler.Event.admitNext 9) =
      Scheduler.run cfgSched capDemoEvents :=
  ⟨(claim_C4_concurrency_cap cfgSched capDemoEvents).1, by decide,
    (claim_C4_concurrency_cap cfgSched capDemoEvents).2
      (Scheduler.run cfgSched capDemoEvents) 9 (by decide)⟩

/-- A concurrency-1 configuration: tasks run strictly one after another. -/
def cfgSeq : ISchedulerConfig :=
  { maxConcurrent := 1, defaultTimeoutMs := 5000, priorityLevels := 4 }

/-- One cooperative cycle at cap 1: take in the highest-priority queued task
and settle its work as resolved before the next admission. -/
def seqCycle (cfg : ISchedulerConfig) (st : SchedulerSt) (now : Nat) : SchedulerSt :=
  match (PriorityQueue.dequeue st.queue).1 with
  | none => st
  | some t =>
      Scheduler.step cfg (Scheduler.step cfg st (Scheduler.Event.admitNext now))
        (Scheduler.Event.settle t.id TaskOutcome.resolves now)

/-- Iterate `seqCycle` the given number of times (at time 0). -/
def seqRun (cfg : ISchedulerConfig) : Nat → SchedulerSt → SchedulerSt
  | 0, st => st
  | n + 1, st => seqRun cfg n (seqCycle cfg st 0)

/-- The state after scheduling tasks at LOW, CRITICAL, HIGH (in that
submission order) and starting the scheduler. -/
def schedOrderDemo : SchedulerSt :=
  Scheduler.run cfgSeq
    [Scheduler.Event.schedule { id := "low", priority := Priority.LOW, createdAt := 0, timeoutMs := 5000 },
      Scheduler.Event.schedule { id := "critical", priority := Priority.CRITICAL, createdAt := 0, timeoutMs := 5000 },
      Scheduler.Event.schedule { id := "high", priority := Priority.HIGH, createdAt := 0, timeoutMs := 5000 },
      Scheduler.Event.start]

/-- Claim C5: dequeue returns the head of the highest-priority non-empty
bucket (queue contents in priority order), enqueue appends at the tail of
its bucket (FIFO within a bucket, other buckets untouched); consequently
tasks submitted LOW, CRITICAL, HIGH complete in order CRITICAL, HIGH, LOW
once the scheduler runs them. -/
theorem claim_C5_priority_fifo :
    (∀ q : PQueue, (PriorityQueue.dequeue q).1 = (PriorityQueue.toArray q).head?) ∧
    (∀ (q : PQueue) (t : IScheduledTask),
        (PriorityQueue.enqueue q t).buckets t.priority = q.buckets t.priority ++ [t]) ∧
    (∀ (q : PQueue) (t : IScheduledTask) (p : Priority), p ≠ t.priority →
        (PriorityQueue.enqueue q t).buckets p = q.buckets p) ∧
    (seqRun cfgSeq 3 schedOrderDemo).completions.map ITaskExecutionResult.taskId
      = ["critical", "high", "low"] := by
  refine ⟨?_, ?_, ?_, ?_⟩
  · intro q
    exact PriorityQueue.dequeueFrom_fst q priorities
  · intro q t
    simp [PriorityQueue.enqueue]
  · intro q t p h
    simp [PriorityQueue.enqueue, h]
  · decide

/-- Witness for C5: enqueueing a MEDIUM task leaves the CRITICAL bucket of
the demo queue untouched. -/
theorem claim_C5_priority_fifo_witness :
    Priority.CRITICAL ≠ Priority.MEDIUM ∧
    (PriorityQueue.enqueue PriorityQueue.empty
        { id := "m", priority := Priority.MEDIUM, createdAt := 0, timeoutMs := 5000 }).buckets
        Priority.CRITICAL =
      PriorityQueue.empty.buckets Priority.CRITICAL :=
  ⟨by decide,
    claim_C5_priority_fifo.2.2.1 PriorityQueue.empty
      { id := "m", priority := Priority.MEDIUM, createdAt := 0, timeoutMs := 5000 }
      Priority.CRITICAL (by decide)⟩

/-- A scheduler state with one admitted task "t1" (admitted at time 0). -/
def stRun1 : SchedulerSt :=
  { Scheduler.init with running := [("t1", 0)], isRunning := true }

/-- Counterexample to C1: settling the admitted task "t1" as rejected (and
likewise as timed out) removes it from the running set but pushes no record
onto the completion stream — not the exactly-one record the claim states;
only the failed counter moves. -/
theorem claim_C1_counterexample :
    Scheduler.lookupKey stRun1.running "t1" = some 0 ∧
    (Scheduler.settleTask stRun1 "t1" TaskOutcome.rejects 5).running = [] ∧
    (Scheduler.settleTask stRun1 "t1" TaskOutcome.rejects 5).completions = [] ∧
    (Scheduler.settleTask stRun1 "t1" TaskOutcome.timesOut 5).completions = [] ∧
    (Scheduler.settleTask stRun1 "t1" TaskOutcome.rejects 5).failedCount = 1 := by
  refine ⟨rfl, rfl, rfl, rfl, rfl⟩

/-- Claim C1 (amended): every settlement of an admitted task removes it from
the running set, but only a resolving task pushes a completion record —
exactly one; a rejecting or timed-out task pushes none and increments the
failed counter instead. -/
theorem claim_C1_settlement (st : SchedulerSt) (taskId : String)
    (startedAt : Nat) (outcome : TaskOutcome) (now : Nat)
    (h : Scheduler.lookupKey st.running taskId = some startedAt) :
    (Scheduler.settleTask st taskId outcome now).running
      = Scheduler.eraseKey st.running taskId ∧
    (outcome = TaskOutcome.resolves →
      (Scheduler.settleTask st taskId outcome now).completions
        = st.completions
          ++ [{ taskId := taskId, executionTimeMs := now - startedAt, completedAt := now }] ∧
      (Scheduler.settleTask st taskId outcome now).completedCount
        = st.completedCount + 1) ∧
    (outcome ≠ TaskOutcome.resolves →
      (Scheduler.settleTask st taskId outcome now).completions = st.completions ∧
      (Scheduler.settleTask st taskId outcome now).failedCount = st.failedCount + 1) := by
  cases outcome <;> simp [Scheduler.settleTask, h]

/-- Witness for the amended C1: resolving "t1" pushes exactly one record. -/
theorem claim_C1_settlement_witness :
    Scheduler.lookupKey stRun1.running "t1" = some 0 ∧
    ((Scheduler.settleTask stRun1 "t1" TaskOutcome.resolves 5).running
        = Scheduler.eraseKey stRun1.running "t1" ∧
      (TaskOutcome.resolves = TaskOutcome.resolves →
        (Scheduler.settleTask stRun1 "t1" TaskOutcome.resolves 5).completions
          = stRun1.completions
            ++ [{ taskId := "t1", executionTimeMs := 5 - 0, completedAt := 5 }] ∧
        (Scheduler.settleTask stRun1 "t1" TaskOutcome.resolves 5).completedCount
          = stRun1.completedCount + 1) ∧
      (TaskOutcome.resolves ≠ TaskOutcome.resolves →
        (Scheduler.settleTask stRun1 "t1" TaskOutcome.resolves 5).completions
          = stRun1.completions ∧
        (Scheduler.settleTask stRun1 "t1" TaskOutcome.resolves 5).failedCount
          = stRun1.failedCount + 1)) :=
  ⟨rfl, claim_C1_settlement stRun1 "t1" 0 TaskOutcome.resolves 5 rfl⟩

end Symbiosis
